import Mathlib

/-!
Shallow embedding of the Library-App front end (React + TypeScript):
the catalog search / import controller in
`src/components/BookFormModal/BookFormModal.tsx`, the debounce hook in
`src/hooks/useDebounce.ts` and the request-state hooks in
`src/hooks/useAPI.ts`, together with proofs of the behavioural
properties stated in the specification.

TypeScript `number` fields that hold identifiers, years or list lengths
are modelled as `Int`/`Nat`; optional (`?` / `| null`) fields as
`Option`; a JavaScript truthiness test on an optional string (`if
(book.isbn)`) is modelled as "the option is `some` of a non-empty
string".
-/

namespace LibraryApp

/-! ### JavaScript string primitives

The Lean core `String.trim` / `String.toLower` are iterator-based and do
not reduce inside the kernel, so the JavaScript string operations used
by the code are embedded as executable functions on the underlying
character list. -/

/-- The whitespace characters stripped by JavaScript
`String.prototype.trim` (the ASCII ones; the code never feeds it the
exotic Unicode space separators). -/
def jsWhitespace (c : Char) : Bool :=
  c = ' ' || c = '\t' || c = '\n' || c = '\r' || c = '\x0b' || c = '\x0c'

/-- JavaScript `s.trim()`. -/
def jsTrim (s : String) : String :=
  ⟨((s.data.dropWhile jsWhitespace).reverse.dropWhile jsWhitespace).reverse⟩

/-- JavaScript `s.toLowerCase()` (ASCII case mapping suffices for the
author names the code compares). -/
def jsToLower (s : String) : String :=
  ⟨s.data.map Char.toLower⟩

/-- `Publisher` from `src/types/api.ts`. -/
structure Publisher where
  id : Int
  name : String
deriving Repr, DecidableEq

/-- `BookDetails` from `src/types/api.ts`. -/
structure BookDetails where
  id : Int
  bookId : Int
  description : Option String := none
  smallThumbnail : Option String := none
  thumbnail : Option String := none
deriving Repr, DecidableEq

/-- `Book` from `src/types/api.ts`.  The embedded `author` is kept as the
pair of its fields to avoid mutual recursion with `Author` (whose
optional `books` back-reference list is irrelevant to every claim and is
carried separately below). -/
structure Book where
  id : Int
  title : String
  isbn : String
  year : Int
  authorId : Int
  publisherId : Option Int := none
  authorName : String
  publisher : Option Publisher := none
  details : Option BookDetails := none
deriving Repr, DecidableEq

/-- `Author` from `src/types/api.ts` (the optional `books` list is
modelled as the list of book ids; only `id` and `name` are ever read by
the code under verification). -/
structure Author where
  id : Int
  name : String
  books : Option (List Int) := none
deriving Repr, DecidableEq

/-- `BookSearchResult` from `src/types/api.ts`: one transient catalog
hit from `GET /books/search`. -/
structure BookSearchResult where
  title : String
  authors : List String
  publisher : Option String := none
  year : Option Int := none
  isbn : Option String := none
  description : Option String := none
  averageRating : Option Int := none
  thumbnail : Option String := none
deriving Repr, DecidableEq

/-- `APIError` from `src/types/api.ts`. -/
structure APIError where
  message : String
  status : Option Int := none
  details : Option String := none
deriving Repr, DecidableEq

/-- `CreateBookDTO` from `src/types/api.ts`; `description`/`thumbnail`
are the optional extra fields `handleSubmit` adds to the create payload. -/
structure CreateBookDTO where
  title : String
  authorId : Int
  isbn : String
  year : Int
  publisherId : Option Int := none
  description : Option String := none
  thumbnail : Option String := none
deriving Repr, DecidableEq

/-- `UpdateBookDTO` from `src/types/api.ts` (with the
description/thumbnail/smallThumbnail fields `handleSubmit` always sets,
`null` when blank). -/
structure UpdateBookDTO where
  title : String
  authorId : Int
  isbn : String
  year : Int
  publisherId : Option Int := none
  description : Option String := none
  thumbnail : Option String := none
  smallThumbnail : Option String := none
deriving Repr, DecidableEq

/-! ### Autocomplete controller state (`BookFormModal.tsx`)

The React state cells used by the search / import workflow:
`searchResults`, `showAutocomplete`, `selectedIndex` (sentinel `-1`),
`currentMaxResults` (initially 10) and `canLoadMore`. -/

structure AutocompleteState where
  searchResults : List BookSearchResult
  showAutocomplete : Bool
  selectedIndex : Int
  currentMaxResults : Nat
  canLoadMore : Bool
deriving Repr, DecidableEq

/-- The initial values of the autocomplete state cells
(`useState` initialisers at `BookFormModal.tsx` lines 67–71). -/
def AutocompleteState.initial : AutocompleteState :=
  { searchResults := []
    showAutocomplete := false
    selectedIndex := -1
    currentMaxResults := 10
    canLoadMore := false }

/-- A search oracle: what `searchBooks query maxResults` resolves to.
The hook itself is an opaque network call; the controller logic under
verification is parametric in its response. -/
def SearchOracle : Type := String → Nat → List BookSearchResult

/-- The guard of `performSearch` (`BookFormModal.tsx` line 162): search
only when the debounced title has at least one non-blank character, the
form is not in edit mode, and the title input is focused. -/
def searchCondition (debouncedTitle : String) (isEditMode titleFocused : Bool) : Bool :=
  1 ≤ (jsTrim debouncedTitle).length && !isEditMode && titleFocused

/-- `performSearch` (`BookFormModal.tsx` lines 159–179): the body of the
effect that runs when the debounced title changes.  When the guard
holds it resets the ceiling to 10, fetches the top 10 for the debounced
title, shows the dropdown iff results are non-empty, and sets
`canLoadMore` iff exactly 10 results came back; otherwise it clears the
results, hides the dropdown and clears `canLoadMore` (leaving
`currentMaxResults` and `selectedIndex` untouched). -/
def performSearch (debouncedTitle : String) (isEditMode titleFocused : Bool)
    (oracle : SearchOracle) (s : AutocompleteState) : AutocompleteState :=
  if searchCondition debouncedTitle isEditMode titleFocused then
    let resetMaxResults : Nat := 10
    let results := oracle debouncedTitle resetMaxResults
    { s with currentMaxResults := resetMaxResults
             searchResults := results
             showAutocomplete := decide (0 < results.length)
             canLoadMore := decide (results.length = resetMaxResults) }
  else
    { s with searchResults := []
             showAutocomplete := false
             canLoadMore := false }

/-- `handleLoadMore` (`BookFormModal.tsx` lines 182–193): a no-op when
the debounced title is blank or a search is already in flight;
otherwise raises the ceiling to `min (current + 10) 40`, re-fetches the
same debounced title at the new ceiling, and sets `canLoadMore` iff the
response filled the ceiling and the ceiling is still below 40. -/
def handleLoadMore (debouncedTitle : String) (searching : Bool)
    (oracle : SearchOracle) (s : AutocompleteState) : AutocompleteState :=
  if (jsTrim debouncedTitle).data.isEmpty || searching then s
  else
    let newMaxResults : Nat := min (s.currentMaxResults + 10) 40
    let results := oracle debouncedTitle newMaxResults
    { s with currentMaxResults := newMaxResults
             searchResults := results
             canLoadMore := decide (results.length = newMaxResults && newMaxResults < 40) }

/-! ### Selection / import (`handleSelectBook`) -/

/-- Externally observable actions of the selection and submit handlers,
in program order: network calls and the callbacks into the parent
component. -/
inductive Effect
  | importCall (isbn : String)
  | authorCreateCall (name : String)
  | bookCreateCall (dto : CreateBookDTO)
  | bookUpdateCall (id : Int) (dto : UpdateBookDTO)
  | authorsRefresh
  | successCallback (b : Book)
  | closeModal
  | errorCallback (msg : String)
deriving Repr, DecidableEq

/-- What the `importBook` hook resolves to for a given ISBN: `some`
book on success, `none` on failure (the hook catches and returns
`null`). -/
def ImportOracle : Type := String → Option Book

/-- JavaScript truthiness of the optional `isbn` field: `undefined`,
`null` and `""` are falsy. -/
def isbnTruthy : Option String → Bool
  | some s => !s.data.isEmpty
  | none => false

/-- `handleSelectBook` (`BookFormModal.tsx` lines 131–156).  It first
unconditionally closes the dropdown (hides it, empties the result list,
resets the selection index to the sentinel `-1`); then, if the selected
result carries a truthy ISBN, awaits the import: on success it refreshes
authors, signals success with the created book and closes the modal; on
a falsy ISBN or a failed import it surfaces the fallback error. -/
def handleSelectBook (book : BookSearchResult) (importOracle : ImportOracle)
    (s : AutocompleteState) : AutocompleteState × List Effect :=
  let s' := { s with showAutocomplete := false
                     searchResults := []
                     selectedIndex := -1 }
  if isbnTruthy book.isbn then
    let isbn := book.isbn.getD ""
    match importOracle isbn with
    | some createdBook =>
        (s', [Effect.importCall isbn, Effect.authorsRefresh,
              Effect.successCallback createdBook, Effect.closeModal])
    | none =>
        (s', [Effect.importCall isbn,
              Effect.errorCallback "Failed to add book. Missing ISBN or book already exists."])
  else
    (s', [Effect.errorCallback "Failed to add book. Missing ISBN or book already exists."])

/-! ### Keyboard navigation (`handleKeyDown`) -/

/-- The keys the autocomplete keydown handler distinguishes. -/
inductive Key
  | arrowDown
  | arrowUp
  | enter
  | escape
  | other
deriving Repr, DecidableEq

/-- `handleKeyDown` (`BookFormModal.tsx` lines 230–253).  Inactive
unless the dropdown is shown with at least one result.  ArrowDown moves
the selection down with wrap-around to 0, ArrowUp moves it up with
wrap-around to `length - 1`, Enter with a non-sentinel index commits
the highlighted result through `handleSelectBook`, Escape hides the
dropdown and resets the selection. -/
def handleKeyDown (key : Key) (importOracle : ImportOracle)
    (s : AutocompleteState) : AutocompleteState × List Effect :=
  if !s.showAutocomplete || s.searchResults.length = 0 then (s, [])
  else
    match key with
    | Key.arrowDown =>
        ({ s with selectedIndex :=
             if s.selectedIndex < (s.searchResults.length : Int) - 1
             then s.selectedIndex + 1 else 0 }, [])
    | Key.arrowUp =>
        ({ s with selectedIndex :=
             if 0 < s.selectedIndex
             then s.selectedIndex - 1 else (s.searchResults.length : Int) - 1 }, [])
    | Key.enter =>
        if 0 ≤ s.selectedIndex then
          match s.searchResults.get? s.selectedIndex.toNat with
          | some book => handleSelectBook book importOracle s
          | none => (s, [])
        else (s, [])
    | Key.escape =>
        ({ s with showAutocomplete := false, selectedIndex := -1 }, [])
    | Key.other => (s, [])

/-! ### Manual submission (`validateForm`, `handleSubmit`) -/

/-- JavaScript `parseInt(s)` (radix 10): skip leading whitespace, read
an optional sign and then the longest digit run; `NaN` (here `none`)
when no digit follows. -/
def jsParseInt (s : String) : Option Int :=
  let t := (jsTrim s).data
  let signNeg : Bool := t.head? = some '-'
  let rest :=
    match t with
    | '-' :: r => r
    | '+' :: r => r
    | r => r
  let digits := rest.takeWhile Char.isDigit
  if digits.isEmpty then none
  else
    let n : Nat := digits.foldl (fun acc c => acc * 10 + (c.toNat - Char.toNat '0')) 0
    some (if signNeg then -(n : Int) else (n : Int))

/-- JavaScript `x || null` on an optional string: empty strings collapse
to `null`. -/
def strOrNull : Option String → Option String
  | some s => if s.data.isEmpty then none else some s
  | none => none

/-- JavaScript `x || null` on an optional number: `0` collapses to
`null`. -/
def numOrNull : Option Int → Option Int
  | some v => if v = 0 then none else some v
  | none => none

/-- The ISBN check of `validateForm` (`BookFormModal.tsx` lines
266–270): the trimmed field must be non-empty and the raw field must
match `/^[0-9-]+$/`. -/
def isbnFieldValid (isbn : String) : Bool :=
  !(jsTrim isbn).data.isEmpty &&
    (!isbn.data.isEmpty && isbn.data.all (fun c => c.isDigit || c = '-'))

/-- The year check of `validateForm` (`BookFormModal.tsx` lines
272–279): trimmed field non-empty, `parseInt` yields a number in
`[0, 3000]`. -/
def yearFieldValid (year : String) : Bool :=
  !(jsTrim year).data.isEmpty &&
    (match jsParseInt year with
     | some y => decide (0 ≤ y) && decide (y ≤ 3000)
     | none => false)

/-- `validateForm` (`BookFormModal.tsx` lines 255–283): true iff no
field error is recorded. -/
def validateForm (title authorName isbn year : String) : Bool :=
  !(jsTrim title).data.isEmpty && !(jsTrim authorName).data.isEmpty &&
    isbnFieldValid isbn && yearFieldValid year

/-- The form fields read by `handleSubmit`. -/
structure FormData where
  title : String
  authorName : String
  isbn : String
  year : String
  publisherName : String
  description : String
  thumbnail : String
deriving Repr, DecidableEq

/-- What the `createAuthor` hook resolves to for a given name: `some`
author on success, `none` on failure. -/
def CreateAuthorOracle : Type := String → Option Author

/-- What the `createBook` hook resolves to for a given payload. -/
def CreateBookOracle : Type := CreateBookDTO → Option Book

/-- What the `updateBook` hook resolves to for a given id and payload. -/
def UpdateBookOracle : Type := Int → UpdateBookDTO → Option Book

/-- Author resolution in `handleSubmit` (`BookFormModal.tsx` line 296):
`authors?.find(a => a.name.toLowerCase() === authorName.toLowerCase())`;
`authors` may still be `null`. -/
def findExistingAuthor (authors : Option (List Author)) (authorName : String) : Option Author :=
  (authors.getD []).find? (fun a => jsToLower a.name = jsToLower authorName)

/-- Steps 2–3 of `handleSubmit` (`BookFormModal.tsx` lines 312–374):
resolve the publisher id, then create or update the book and run the
success / error callbacks.  `authorId` is the already-resolved author
id; `pre` carries the effects of author resolution. -/
def submitBookStep (f : FormData) (editBook : Option Book) (authorId : Int)
    (createBookOracle : CreateBookOracle) (updateBookOracle : UpdateBookOracle)
    (pre : List Effect) : List Effect :=
  let publisherId : Option Int :=
    match editBook with
    | some eb => numOrNull eb.publisherId
    | none => none
  match editBook with
  | some eb =>
      let updateData : UpdateBookDTO :=
        { title := jsTrim f.title
          authorId := authorId
          isbn := jsTrim f.isbn
          year := (jsParseInt f.year).getD 0
          publisherId := publisherId
          description := strOrNull (some (jsTrim f.description))
          thumbnail := strOrNull (some (jsTrim f.thumbnail))
          smallThumbnail := strOrNull ((eb.details.map BookDetails.smallThumbnail).join) }
      match updateBookOracle eb.id updateData with
      | some result =>
          pre ++ [Effect.bookUpdateCall eb.id updateData,
                  Effect.successCallback result, Effect.closeModal]
      | none =>
          pre ++ [Effect.bookUpdateCall eb.id updateData,
                  Effect.errorCallback "Failed to update book. Please try again."]
  | none =>
      let bookData : CreateBookDTO :=
        { title := jsTrim f.title
          authorId := authorId
          isbn := jsTrim f.isbn
          year := (jsParseInt f.year).getD 0
          publisherId := publisherId
          description :=
            if (jsTrim f.description).data.isEmpty then none else some (jsTrim f.description)
          thumbnail :=
            if (jsTrim f.thumbnail).data.isEmpty then none else some (jsTrim f.thumbnail) }
      match createBookOracle bookData with
      | some result =>
          pre ++ [Effect.bookCreateCall bookData,
                  Effect.successCallback result, Effect.closeModal]
      | none =>
          pre ++ [Effect.bookCreateCall bookData,
                  Effect.errorCallback "Failed to add book. Please try again."]

/-- `handleSubmit` (`BookFormModal.tsx` lines 285–379): validate, then
resolve the author by case-insensitive exact-name match against the
fetched author list (creating a new author first when no match, and
aborting with an error when that creation fails), then create or update
the book with the resolved `authorId` in the payload. -/
def handleSubmit (f : FormData) (authors : Option (List Author)) (editBook : Option Book)
    (createAuthorOracle : CreateAuthorOracle)
    (createBookOracle : CreateBookOracle) (updateBookOracle : UpdateBookOracle) :
    List Effect :=
  if !validateForm f.title f.authorName f.isbn f.year then []
  else
    let authorName := jsTrim f.authorName
    match findExistingAuthor authors authorName with
    | some existingAuthor =>
        submitBookStep f editBook existingAuthor.id createBookOracle updateBookOracle []
    | none =>
        match createAuthorOracle authorName with
        | none =>
            [Effect.authorCreateCall authorName,
             Effect.errorCallback "Failed to create author. Please try again."]
        | some newAuthor =>
            submitBookStep f editBook newAuthor.id createBookOracle updateBookOracle
              [Effect.authorCreateCall authorName, Effect.authorsRefresh]

/-! ### The debounce hook (`src/hooks/useDebounce.ts`)

`useDebounce` keeps one state cell `debouncedValue` and one pending
`setTimeout` handle.  The effect re-runs on every change of the input
value: its cleanup clears the previous timer, then a new timer for
`value` is armed `delay` ms in the future; on unmount the cleanup clears
the timer without arming a new one.  We model this as a timed trace
machine: events carry the (logical, millisecond) time at which they
occur, and any timer whose deadline has passed fires before the next
event is handled.  Emissions are the `setDebouncedValue` calls, tagged
with their firing time. -/

structure DebounceState (T : Type) where
  debouncedValue : T
  pending : Option (Nat × T)
deriving Repr, DecidableEq

inductive DebounceEvent (T : Type)
  | input (t : Nat) (v : T)
  | teardown (t : Nat)
  | elapse (t : Nat)
deriving Repr, DecidableEq

/-- Fire the pending timer if its deadline is at or before time `t`
(the `setTimeout` callback: `setDebouncedValue(value)`). -/
def debounceFire (t : Nat) (s : DebounceState T) : DebounceState T × List (Nat × T) :=
  match s.pending with
  | some (tf, v) =>
      if tf ≤ t then ({ debouncedValue := v, pending := none }, [(tf, v)])
      else (s, [])
  | none => (s, [])

/-- One event of the debounce trace.  An input change at time `t` first
lets any due timer fire, then (effect cleanup + new effect) replaces the
pending timer with one for the new value at deadline `t + delay`.
Teardown lets any due timer fire, then clears the pending timer for
good.  `elapse t` just advances time to `t`, firing a due timer. -/
def debounceStep (delay : Nat) (s : DebounceState T) :
    DebounceEvent T → DebounceState T × List (Nat × T)
  | DebounceEvent.input t v =>
      let fired := debounceFire t s
      ({ fired.1 with pending := some (t + delay, v) }, fired.2)
  | DebounceEvent.teardown t =>
      let fired := debounceFire t s
      ({ fired.1 with pending := none }, fired.2)
  | DebounceEvent.elapse t => debounceFire t s

/-- Run a trace of events, collecting emissions in order. -/
def debounceRun (delay : Nat) (s : DebounceState T) :
    List (DebounceEvent T) → DebounceState T × List (Nat × T)
  | [] => (s, [])
  | e :: es =>
      let step := debounceStep delay s e
      let rest := debounceRun delay step.1 es
      (rest.1, step.2 ++ rest.2)

/-- Input events of a timed value sequence (the first entry plays the
role of the mounting render, which also arms a timer). -/
def inputEvents (inputs : List (Nat × T)) : List (DebounceEvent T) :=
  inputs.map (fun p => DebounceEvent.input p.1 p.2)

/-- "Typed faster than the quiet period": strictly increasing times,
each arriving strictly less than `delay` after the previous one. -/
def rapidChain (delay : Nat) (inputs : List (Nat × T)) : Prop :=
  List.Chain' (fun a b => a.1 < b.1 ∧ b.1 < a.1 + delay) inputs

/-! ### The request-state hooks (`src/hooks/useAPI.ts`)

Each run is split at its single `await`: the updates issued
synchronously before the asynchronous operation starts, and the updates
issued when it completes.  The completion updates are a function of the
operation's outcome and of whether the consumer is still mounted at
completion time — which matters only where the code actually consults
an `isMounted` flag. -/

inductive StateUpdate (α : Type)
  | setData (v : Option α)
  | setError (e : Option APIError)
  | setLoading (b : Bool)
deriving Repr, DecidableEq

/-- The observable cells of a request-state hook. -/
structure RequestState (α : Type) where
  data : Option α
  loading : Bool
  error : Option APIError
deriving Repr, DecidableEq

def applyUpdate (s : RequestState α) : StateUpdate α → RequestState α
  | StateUpdate.setData v => { s with data := v }
  | StateUpdate.setError e => { s with error := e }
  | StateUpdate.setLoading b => { s with loading := b }

def applyUpdates (s : RequestState α) (us : List (StateUpdate α)) : RequestState α :=
  us.foldl applyUpdate s

namespace UseAPI

/-- `useAPI.execute`, before the `await` (`useAPI.ts` lines 46–47):
`setLoading(true); setError(null)`. -/
def executePre (α : Type) : List (StateUpdate α) :=
  [StateUpdate.setLoading true, StateUpdate.setError none]

/-- `useAPI.execute`, after the `await` resolves (`useAPI.ts` lines
50–60): `setData` on success, `setError` on rejection, `setLoading
(false)` in the `finally`.  The code has no mounted-check, so the list
does not depend on `mountedAtCompletion`. -/
def executePost (α : Type) (outcome : Except APIError α)
    (_mountedAtCompletion : Bool) : List (StateUpdate α) :=
  (match outcome with
   | Except.ok r => [StateUpdate.setData (some r)]
   | Except.error e => [StateUpdate.setError (some e)]) ++
  [StateUpdate.setLoading false]

/-- A full `execute` run applied to the hook state (consumer still
mounted throughout). -/
def executeRun (s : RequestState α) (outcome : Except APIError α) : RequestState α :=
  applyUpdates s (executePre α ++ executePost α outcome true)

/-- `useAPI.reset` (`useAPI.ts` lines 63–67). -/
def resetUpdates (α : Type) : List (StateUpdate α) :=
  [StateUpdate.setData none, StateUpdate.setLoading false, StateUpdate.setError none]

end UseAPI

namespace UseBooks

/-- `useBooks.fetchBooks`, before the `await` (`useAPI.ts` lines
94–95): `setLoading(true); setError(null)`, issued synchronously while
the effect (and hence the consumer) is live. -/
def fetchPre : List (StateUpdate (List Book)) :=
  [StateUpdate.setLoading true, StateUpdate.setError none]

/-- `useBooks.fetchBooks`, after the `await` resolves (`useAPI.ts`
lines 98–114): every update is guarded by the `isMounted` flag that the
effect's cleanup sets to false. -/
def fetchPost (outcome : Except APIError (List Book))
    (isMounted : Bool) : List (StateUpdate (List Book)) :=
  (match outcome with
   | Except.ok r => if isMounted then [StateUpdate.setData (some r)] else []
   | Except.error e => if isMounted then [StateUpdate.setError (some e)] else []) ++
  (if isMounted then [StateUpdate.setLoading false] else [])

end UseBooks

/-! ### Classifiers on effects (for stating call-ordering properties) -/

/-- Is this effect the record create/update network call? -/
def Effect.isRecordCall : Effect → Bool
  | Effect.bookCreateCall _ => true
  | Effect.bookUpdateCall _ _ => true
  | _ => false

/-- The `authorId` placed in a record create/update payload. -/
def Effect.recordAuthorId : Effect → Option Int
  | Effect.bookCreateCall dto => some dto.authorId
  | Effect.bookUpdateCall _ dto => some dto.authorId
  | _ => none

/-- Is this effect the author-create network call? -/
def Effect.isAuthorCreate : Effect → Bool
  | Effect.authorCreateCall _ => true
  | _ => false

/-! ### Concrete sample data for evaluating the definitions -/

/-- A concrete catalog hit (with ISBN). -/
def sampleResult : BookSearchResult :=
  { title := "Dune", authors := ["Frank Herbert"], isbn := some "9780441013593" }

/-- A concrete catalog hit carrying no external identifier. -/
def sampleResultNoIsbn : BookSearchResult :=
  { title := "Dune", authors := ["Frank Herbert"] }

/-- A search oracle answering every query with as many copies of
`sampleResult` as were requested. -/
def sampleSearch : SearchOracle := fun _ n => List.replicate n sampleResult

/-- A concrete persisted record. -/
def sampleBook : Book :=
  { id := 1, title := "Dune", isbn := "9780441013593", year := 1965
    authorId := 1, authorName := "Frank Herbert" }

/-- A controller state whose dropdown is showing three results. -/
def shownState : AutocompleteState :=
  { searchResults := [sampleResult, sampleResultNoIsbn, sampleResult]
    showAutocomplete := true
    selectedIndex := 0
    currentMaxResults := 10
    canLoadMore := false }

/-- A concrete filled-in form. -/
def sampleForm : FormData :=
  { title := "Dune"
    authorName := "Frank Herbert"
    isbn := "9780441013593"
    year := "1965"
    publisherName := ""
    description := ""
    thumbnail := "" }

/-- An already-fetched author whose name does not match `sampleForm`. -/
def otherAuthor : Author := { id := 7, name := "Ursula K. Le Guin" }

/-- An already-fetched author matching `sampleForm`'s author name
case-insensitively. -/
def matchingAuthor : Author := { id := 3, name := "FRANK herbert" }

/-- The author the author-create endpoint returns in the samples. -/
def createdAuthor : Author := { id := 42, name := "Frank Herbert" }

/-! ## Theorems -/

/-- C1: for every search response received by the controller,
`canLoadMore` is set iff the response length equals the ceiling
requested for that fetch and that ceiling is strictly below 40 (the
initial fetch requests ceiling 10, which is below 40; load-more
requests ceiling `min (current + 10) 40`). -/
theorem C1_canLoadMore_iff_filled (q : String) (isEditMode titleFocused searching : Bool)
    (oracle : SearchOracle) (s : AutocompleteState)
    (hsearch : searchCondition q isEditMode titleFocused = true)
    (hguard : ((jsTrim q).data.isEmpty || searching) = false) :
    ((performSearch q isEditMode titleFocused oracle s).canLoadMore = true ↔
      ((oracle q 10).length = 10 ∧ 10 < 40)) ∧
    ((handleLoadMore q searching oracle s).canLoadMore = true ↔
      ((oracle q (min (s.currentMaxResults + 10) 40)).length =
          min (s.currentMaxResults + 10) 40 ∧
        min (s.currentMaxResults + 10) 40 < 40)) := by
  constructor
  · simp [performSearch, hsearch]
  · simp [handleLoadMore, hguard]

/-- Witness for C1 at a concrete query, oracle and state. -/
theorem C1_canLoadMore_iff_filled_witness :
    ((performSearch "dune" false true sampleSearch AutocompleteState.initial).canLoadMore = true ↔
      ((sampleSearch "dune" 10).length = 10 ∧ 10 < 40)) ∧
    ((handleLoadMore "dune" false sampleSearch AutocompleteState.initial).canLoadMore = true ↔
      ((sampleSearch "dune" (min (AutocompleteState.initial.currentMaxResults + 10) 40)).length =
          min (AutocompleteState.initial.currentMaxResults + 10) 40 ∧
        min (AutocompleteState.initial.currentMaxResults + 10) 40 < 40)) :=
  C1_canLoadMore_iff_filled "dune" false true false sampleSearch AutocompleteState.initial
    (by decide) (by decide)

/-- C2 as stated is false: when the debounced search text changes to a
value that does not trigger a search (here: the blank string), the
ceiling is not reset to 10 — the else-branch of `performSearch` clears
the dropdown but leaves `currentMaxResults` at its old value. -/
theorem C2_counterexample_blank_change :
    (performSearch "" false true sampleSearch
        { AutocompleteState.initial with currentMaxResults := 20 }).currentMaxResults = 20 ∧
      ¬ (performSearch "" false true sampleSearch
          { AutocompleteState.initial with currentMaxResults := 20 }).currentMaxResults = 10 := by
  constructor
  · rfl
  · decide

/-- C2 (amended): the ceiling is reset to 10 whenever the debounced
text changes to a value that triggers a search (non-blank, not edit
mode, input focused); a load-more on a non-blank unchanged text with no
search in flight sets the ceiling to `min (current + 10) 40`, so from
any ceiling ≤ 40 (10 initially) it never decreases and never exceeds
40; and load-more re-fetches the full top-N window for the same query
text at the new ceiling. -/
theorem C2_amended_ceiling_discipline (q : String)
    (isEditMode titleFocused searching : Bool)
    (oracle : SearchOracle) (s : AutocompleteState)
    (hsearch : searchCondition q isEditMode titleFocused = true)
    (hguard : ((jsTrim q).data.isEmpty || searching) = false)
    (h40 : s.currentMaxResults ≤ 40) :
    (performSearch q isEditMode titleFocused oracle s).currentMaxResults = 10 ∧
    (handleLoadMore q searching oracle s).currentMaxResults =
      min (s.currentMaxResults + 10) 40 ∧
    s.currentMaxResults ≤ (handleLoadMore q searching oracle s).currentMaxResults ∧
    (handleLoadMore q searching oracle s).currentMaxResults ≤ 40 ∧
    (handleLoadMore q searching oracle s).searchResults =
      oracle q (min (s.currentMaxResults + 10) 40) ∧
    AutocompleteState.initial.currentMaxResults = 10 := by
  refine ⟨by simp [performSearch, hsearch], by simp [handleLoadMore, hguard], ?_, ?_,
    by simp [handleLoadMore, hguard], rfl⟩
  · simp only [handleLoadMore, hguard, Bool.false_eq_true, if_false]
    omega
  · simp only [handleLoadMore, hguard, Bool.false_eq_true, if_false]
    omega

/-- Witness for C2 (amended) at a concrete query, oracle and state. -/
theorem C2_amended_ceiling_discipline_witness :
    (performSearch "dune" false true sampleSearch shownState).currentMaxResults = 10 ∧
    (handleLoadMore "dune" false sampleSearch shownState).currentMaxResults =
      min (shownState.currentMaxResults + 10) 40 ∧
    shownState.currentMaxResults ≤
      (handleLoadMore "dune" false sampleSearch shownState).currentMaxResults ∧
    (handleLoadMore "dune" false sampleSearch shownState).currentMaxResults ≤ 40 ∧
    (handleLoadMore "dune" false sampleSearch shownState).searchResults =
      sampleSearch "dune" (min (shownState.currentMaxResults + 10) 40) ∧
    AutocompleteState.initial.currentMaxResults = 10 :=
  C2_amended_ceiling_discipline "dune" false true false sampleSearch shownState
    (by decide) (by decide) (by decide)

/-- C3 as stated is false: when the import of a selected result fails,
the dropdown is not left intact — `handleSelectBook` clears it (empties
the result list and hides it) unconditionally before the import is even
issued, although the error is indeed surfaced. -/
theorem C3_counterexample_dropdown_cleared :
    ¬ shownState.searchResults = [] ∧ shownState.showAutocomplete = true ∧
    (handleSelectBook sampleResult (fun _ => none) shownState).1.searchResults = [] ∧
    (handleSelectBook sampleResult (fun _ => none) shownState).1.showAutocomplete = false ∧
    Effect.errorCallback "Failed to add book. Missing ISBN or book already exists."
      ∈ (handleSelectBook sampleResult (fun _ => none) shownState).2 := by
  refine ⟨by decide, rfl, rfl, rfl, by decide⟩

/-- C3 (amended): when the import of a selected result fails, the call
to import was issued and an error is surfaced, but the dropdown has
already been cleared at selection time (result list emptied, selection
index reset to the sentinel, dropdown hidden) — the controller falls
back to the idle dropdown state rather than keeping the results shown. -/
theorem C3_amended_import_failure (book : BookSearchResult) (oracle : ImportOracle)
    (s : AutocompleteState)
    (hisbn : isbnTruthy book.isbn = true)
    (hfail : oracle (book.isbn.getD "") = none) :
    (handleSelectBook book oracle s).2 =
      [Effect.importCall (book.isbn.getD ""),
       Effect.errorCallback "Failed to add book. Missing ISBN or book already exists."] ∧
    (handleSelectBook book oracle s).1 =
      { s with showAutocomplete := false, searchResults := [], selectedIndex := -1 } := by
  simp [handleSelectBook, hisbn, hfail]

/-- Witness for C3 (amended) at a concrete result, oracle and state. -/
theorem C3_amended_import_failure_witness :
    (handleSelectBook sampleResult (fun _ => none) shownState).2 =
      [Effect.importCall (sampleResult.isbn.getD ""),
       Effect.errorCallback "Failed to add book. Missing ISBN or book already exists."] ∧
    (handleSelectBook sampleResult (fun _ => none) shownState).1 =
      { shownState with showAutocomplete := false, searchResults := [], selectedIndex := -1 } :=
  C3_amended_import_failure sampleResult (fun _ => none) shownState (by decide) rfl

/-- C4: selecting a result whose external identifier is absent or empty
never issues an import call and always surfaces an error. -/
theorem C4_no_isbn_no_import (book : BookSearchResult) (oracle : ImportOracle)
    (s : AutocompleteState)
    (h : isbnTruthy book.isbn = false) :
    (∀ isbn, Effect.importCall isbn ∉ (handleSelectBook book oracle s).2) ∧
    Effect.errorCallback "Failed to add book. Missing ISBN or book already exists."
      ∈ (handleSelectBook book oracle s).2 := by
  simp [handleSelectBook, h]

/-- Witness for C4 at a concrete identifier-less result. -/
theorem C4_no_isbn_no_import_witness :
    (∀ isbn, Effect.importCall isbn ∉
        (handleSelectBook sampleResultNoIsbn (fun _ => some sampleBook) shownState).2) ∧
    Effect.errorCallback "Failed to add book. Missing ISBN or book already exists."
      ∈ (handleSelectBook sampleResultNoIsbn (fun _ => some sampleBook) shownState).2 :=
  C4_no_isbn_no_import sampleResultNoIsbn (fun _ => some sampleBook) shownState (by decide)

/-- C5: selecting a result with a non-empty external identifier, when
the import succeeds, clears the dropdown (empty result list, sentinel
selection index, hidden), and runs — in order — the import call, the
caller's authors refresh, the success callback with the persisted
record returned by the import endpoint, and the modal close. -/
theorem C5_import_success (book : BookSearchResult) (oracle : ImportOracle)
    (s : AutocompleteState) (b : Book)
    (hisbn : isbnTruthy book.isbn = true)
    (hok : oracle (book.isbn.getD "") = some b) :
    (handleSelectBook book oracle s).1.searchResults = [] ∧
    (handleSelectBook book oracle s).1.selectedIndex = -1 ∧
    (handleSelectBook book oracle s).1.showAutocomplete = false ∧
    (handleSelectBook book oracle s).2 =
      [Effect.importCall (book.isbn.getD ""), Effect.authorsRefresh,
       Effect.successCallback b, Effect.closeModal] := by
  simp [handleSelectBook, hisbn, hok]

/-- Witness for C5 at a concrete result, oracle and state. -/
theorem C5_import_success_witness :
    (handleSelectBook sampleResult (fun _ => some sampleBook) shownState).1.searchResults = [] ∧
    (handleSelectBook sampleResult (fun _ => some sampleBook) shownState).1.selectedIndex = -1 ∧
    (handleSelectBook sampleResult (fun _ => some sampleBook) shownState).1.showAutocomplete
      = false ∧
    (handleSelectBook sampleResult (fun _ => some sampleBook) shownState).2 =
      [Effect.importCall (sampleResult.isbn.getD ""), Effect.authorsRefresh,
       Effect.successCallback sampleBook, Effect.closeModal] :=
  C5_import_success sampleResult (fun _ => some sampleBook) shownState sampleBook
    (by decide) rfl

/-- Shape of the create/update step: the effects are `pre` followed by
exactly one record call carrying the resolved `authorId`, followed by
callback effects only. -/
theorem submitBookStep_shape (f : FormData) (eb : Option Book) (aid : Int)
    (cbo : CreateBookOracle) (ubo : UpdateBookOracle) (pre : List Effect) :
    ∃ e rest, submitBookStep f eb aid cbo ubo pre = pre ++ e :: rest ∧
      e.isRecordCall = true ∧ e.recordAuthorId = some aid ∧ e.isAuthorCreate = false ∧
      ∀ x ∈ rest, x.isRecordCall = false ∧ x.isAuthorCreate = false := by
  unfold submitBookStep
  cases eb with
  | some b =>
      dsimp only
      split
      · exact ⟨_, _, rfl, rfl, rfl, rfl, by
          simp [Effect.isRecordCall, Effect.isAuthorCreate]⟩
      · exact ⟨_, _, rfl, rfl, rfl, rfl, by
          simp [Effect.isRecordCall, Effect.isAuthorCreate]⟩
  | none =>
      dsimp only
      split
      · exact ⟨_, _, rfl, rfl, rfl, rfl, by
          simp [Effect.isRecordCall, Effect.isAuthorCreate]⟩
      · exact ⟨_, _, rfl, rfl, rfl, rfl, by
          simp [Effect.isRecordCall, Effect.isAuthorCreate]⟩

/-- C6: on a valid manual submission, author resolution matches the
fetched author list case-insensitively and the matched author's id is
the `authorId` of the one record call (with no author-create call); when
no author matches, the author-create call strictly precedes the record
call and the created author's id is the `authorId` in the record
payload; when the author-create fails, no record create/update call is
issued at all. -/
theorem C6_author_resolution (f : FormData) (authors : Option (List Author))
    (editBook : Option Book) (cao : CreateAuthorOracle)
    (cbo : CreateBookOracle) (ubo : UpdateBookOracle)
    (hvalid : validateForm f.title f.authorName f.isbn f.year = true) :
    (∀ a, findExistingAuthor authors (jsTrim f.authorName) = some a →
      (∀ x ∈ handleSubmit f authors editBook cao cbo ubo, x.isAuthorCreate = false) ∧
      (∃ x ∈ handleSubmit f authors editBook cao cbo ubo, x.isRecordCall = true) ∧
      (∀ x ∈ handleSubmit f authors editBook cao cbo ubo,
        x.isRecordCall = true → x.recordAuthorId = some a.id)) ∧
    (findExistingAuthor authors (jsTrim f.authorName) = none →
      (∀ na, cao (jsTrim f.authorName) = some na →
        ∃ rest, handleSubmit f authors editBook cao cbo ubo =
            Effect.authorCreateCall (jsTrim f.authorName) :: Effect.authorsRefresh :: rest ∧
          (∃ x ∈ rest, x.isRecordCall = true) ∧
          (∀ x ∈ rest, x.isRecordCall = true → x.recordAuthorId = some na.id) ∧
          (∀ x ∈ rest, x.isAuthorCreate = false)) ∧
      (cao (jsTrim f.authorName) = none →
        ∀ x ∈ handleSubmit f authors editBook cao cbo ubo, x.isRecordCall = false)) := by
  constructor
  · intro a ha
    obtain ⟨e, rest, heq, he1, he2, he3, hrest⟩ :=
      submitBookStep_shape f editBook a.id cbo ubo []
    have hsub : handleSubmit f authors editBook cao cbo ubo = e :: rest := by
      simp [handleSubmit, hvalid, ha, heq]
    rw [hsub]
    refine ⟨?_, ⟨e, by simp, he1⟩, ?_⟩
    · intro x hx
      rcases List.mem_cons.mp hx with h | h
      · simpa [h] using he3
      · exact (hrest x h).2
    · intro x hx hxc
      rcases List.mem_cons.mp hx with h | h
      · simpa [h] using he2
      · exact absurd hxc (by simp [(hrest x h).1])
  · intro hnone
    constructor
    · intro na hna
      obtain ⟨e, rest, heq, he1, he2, he3, hrest⟩ :=
        submitBookStep_shape f editBook na.id cbo ubo
          [Effect.authorCreateCall (jsTrim f.authorName), Effect.authorsRefresh]
      refine ⟨e :: rest, ?_, ⟨e, by simp, he1⟩, ?_, ?_⟩
      · simp [handleSubmit, hvalid, hnone, hna, heq]
      · intro x hx hxc
        rcases List.mem_cons.mp hx with h | h
        · simpa [h] using he2
        · exact absurd hxc (by simp [(hrest x h).1])
      · intro x hx
        rcases List.mem_cons.mp hx with h | h
        · simpa [h] using he3
        · exact (hrest x h).2
    · intro hfail x hx
      have hsub : handleSubmit f authors editBook cao cbo ubo =
          [Effect.authorCreateCall (jsTrim f.authorName),
           Effect.errorCallback "Failed to create author. Please try again."] := by
        simp [handleSubmit, hvalid, hnone, hfail]
      rw [hsub] at hx
      rcases List.mem_cons.mp hx with h | h
      · simp [h, Effect.isRecordCall]
      · simp at h
        simp [h, Effect.isRecordCall]

/-- Witness for C6: no author matches "Frank Herbert", the author-create
succeeds, so the author-create call precedes the record-create call and
the created author's id 42 is the `authorId` in the payload. -/
theorem C6_author_resolution_witness :
    ∃ rest, handleSubmit sampleForm (some [otherAuthor]) none
        (fun _ => some createdAuthor) (fun _ => some sampleBook) (fun _ _ => some sampleBook) =
        Effect.authorCreateCall (jsTrim sampleForm.authorName) :: Effect.authorsRefresh :: rest ∧
      (∃ x ∈ rest, x.isRecordCall = true) ∧
      (∀ x ∈ rest, x.isRecordCall = true → x.recordAuthorId = some createdAuthor.id) ∧
      (∀ x ∈ rest, x.isAuthorCreate = false) :=
  ((C6_author_resolution sampleForm (some [otherAuthor]) none
      (fun _ => some createdAuthor) (fun _ => some sampleBook) (fun _ _ => some sampleBook)
      (by decide)).2 (by decide)).1 createdAuthor rfl

/-- C9: with the dropdown showing `N > 0` results, ArrowDown at index
`N - 1` wraps to 0 and otherwise moves down by one; ArrowUp at index 0
wraps to `N - 1` and at a positive index moves up by one; Enter at the
sentinel index `-1` is a no-op; Enter at a valid index commits the
highlighted result exactly like a pointer selection. -/
theorem C9_keyboard_navigation (s : AutocompleteState) (oracle : ImportOracle) (N : Nat)
    (hshow : s.showAutocomplete = true) (hN : s.searchResults.length = N) (hpos : 0 < N) :
    ((s.selectedIndex = (N : Int) - 1 →
        (handleKeyDown Key.arrowDown oracle s).1.selectedIndex = 0) ∧
     (s.selectedIndex < (N : Int) - 1 →
        (handleKeyDown Key.arrowDown oracle s).1.selectedIndex = s.selectedIndex + 1) ∧
     (s.selectedIndex = 0 →
        (handleKeyDown Key.arrowUp oracle s).1.selectedIndex = (N : Int) - 1) ∧
     (0 < s.selectedIndex →
        (handleKeyDown Key.arrowUp oracle s).1.selectedIndex = s.selectedIndex - 1) ∧
     (s.selectedIndex = -1 → handleKeyDown Key.enter oracle s = (s, [])) ∧
     (∀ b, 0 ≤ s.selectedIndex →
        s.searchResults.get? s.selectedIndex.toNat = some b →
        handleKeyDown Key.enter oracle s = handleSelectBook b oracle s)) := by
  have hN0 : (N = 0) = False := by
    simp; omega
  refine ⟨?_, ?_, ?_, ?_, ?_, ?_⟩
  · intro h
    simp [handleKeyDown, hshow, hN, hN0, h]
  · intro h
    simp [handleKeyDown, hshow, hN, hN0, h]
  · intro h
    simp [handleKeyDown, hshow, hN, hN0, h]
  · intro h
    simp [handleKeyDown, hshow, hN, hN0, h]
  · intro h
    simp [handleKeyDown, hshow, hN, hN0, h]
  · intro b hge hget
    rw [List.get?_eq_getElem?] at hget
    simp [handleKeyDown, hshow, hN, hN0, hge, hget]

/-- Witness for C9 at a concrete three-result dropdown state. -/
theorem C9_keyboard_navigation_witness :
    ((shownState.selectedIndex = (3 : Int) - 1 →
        (handleKeyDown Key.arrowDown (fun _ => some sampleBook) shownState).1.selectedIndex
          = 0) ∧
     (shownState.selectedIndex < (3 : Int) - 1 →
        (handleKeyDown Key.arrowDown (fun _ => some sampleBook) shownState).1.selectedIndex
          = shownState.selectedIndex + 1) ∧
     (shownState.selectedIndex = 0 →
        (handleKeyDown Key.arrowUp (fun _ => some sampleBook) shownState).1.selectedIndex
          = (3 : Int) - 1) ∧
     (0 < shownState.selectedIndex →
        (handleKeyDown Key.arrowUp (fun _ => some sampleBook) shownState).1.selectedIndex
          = shownState.selectedIndex - 1) ∧
     (shownState.selectedIndex = -1 →
        handleKeyDown Key.enter (fun _ => some sampleBook) shownState = (shownState, [])) ∧
     (∀ b, 0 ≤ shownState.selectedIndex →
        shownState.searchResults.get? shownState.selectedIndex.toNat = some b →
        handleKeyDown Key.enter (fun _ => some sampleBook) shownState =
          handleSelectBook b (fun _ => some sampleBook) shownState)) :=
  C9_keyboard_navigation shownState (fun _ => some sampleBook) 3 rfl rfl (by decide)

/-- Unfolding equation for `debounceRun` on a cons. -/
theorem debounceRun_cons {T : Type} (delay : Nat) (s : DebounceState T)
    (e : DebounceEvent T) (es : List (DebounceEvent T)) :
    debounceRun delay s (e :: es) =
      ((debounceRun delay (debounceStep delay s e).1 es).1,
       (debounceStep delay s e).2 ++ (debounceRun delay (debounceStep delay s e).1 es).2) :=
  rfl

/-- Running an event trace splits along an append. -/
theorem debounceRun_append {T : Type} (delay : Nat) (s : DebounceState T)
    (es1 es2 : List (DebounceEvent T)) :
    debounceRun delay s (es1 ++ es2) =
      ((debounceRun delay (debounceRun delay s es1).1 es2).1,
       (debounceRun delay s es1).2 ++
         (debounceRun delay (debounceRun delay s es1).1 es2).2) := by
  induction es1 generalizing s with
  | nil => simp [debounceRun]
  | cons e es ih => simp [debounceRun_cons, ih]

/-- Processing a rapid input burst emits nothing, leaves the debounced
value untouched, and leaves the timer armed for the last input. -/
theorem debounceRun_rapid {T : Type} (delay : Nat) :
    ∀ (inputs : List (Nat × T)) (s : DebounceState T),
      rapidChain delay inputs →
      (∀ tf v, s.pending = some (tf, v) → ∀ p, inputs.head? = some p → p.1 < tf) →
      (debounceRun delay s (inputEvents inputs)).2 = [] ∧
      (debounceRun delay s (inputEvents inputs)).1.debouncedValue = s.debouncedValue ∧
      (debounceRun delay s (inputEvents inputs)).1.pending =
        (match inputs.getLast? with
         | some p => some (p.1 + delay, p.2)
         | none => s.pending) := by
  intro inputs
  induction inputs with
  | nil => intro s _ _; exact ⟨rfl, rfl, rfl⟩
  | cons a rest ih =>
      intro s hchain hguard
      have hfire : debounceFire a.1 s = (s, []) := by
        cases hp : s.pending with
        | none => simp [debounceFire, hp]
        | some q =>
            have hlt : a.1 < q.1 := by
              have := hguard q.1 q.2 (by rw [hp]) a (by simp [inputEvents])
              exact this
            simp [debounceFire, hp]
            omega
      have hstep : debounceStep delay s (DebounceEvent.input a.1 a.2) =
          ({ debouncedValue := s.debouncedValue, pending := some (a.1 + delay, a.2) }, []) := by
        simp [debounceStep, hfire]
      have hchainRest : rapidChain delay rest := List.Chain'.tail hchain
      have hheadRel : ∀ p, rest.head? = some p → p.1 < a.1 + delay := by
        intro p hp
        have := (List.chain'_cons'.mp hchain).1 p hp
        exact this.2
      obtain ⟨hem, hdv, hpend⟩ :=
        ih { debouncedValue := s.debouncedValue, pending := some (a.1 + delay, a.2) }
          hchainRest
          (by
            intro tf v hpf p hp
            simp at hpf
            obtain ⟨h1, h2⟩ := hpf
            subst h1; subst h2
            exact hheadRel p hp)
      have hrun : debounceRun delay s (inputEvents (a :: rest)) =
          ((debounceRun delay
              { debouncedValue := s.debouncedValue, pending := some (a.1 + delay, a.2) }
              (inputEvents rest)).1,
           [] ++ (debounceRun delay
              { debouncedValue := s.debouncedValue, pending := some (a.1 + delay, a.2) }
              (inputEvents rest)).2) := by
        simp only [inputEvents, List.map_cons, debounceRun_cons, hstep]
      rw [hrun]
      refine ⟨by simpa using hem, by simpa using hdv, ?_⟩
      simp only [List.nil_append]
      rw [hpend]
      cases rest with
      | nil => simp
      | cons b t =>
          cases hl : (b :: t).getLast? with
          | none => simp at hl
          | some p => simp [hl]

/-- C7: for any burst of inputs each arriving sooner than the quiet
period after the previous one (the first input playing the role of the
mounting render), only the final value is emitted, exactly once the
quiet period elapses, and the final debounced value is that final input;
each new input cancels the pending emission and re-arms the timer for
the full quiet period; and a teardown before the deadline cancels the
pending emission, so nothing is ever emitted after the consumer is
gone. -/
theorem C7_debounce (T : Type) (delay : Nat) (d0 : T)
    (ins : List (Nat × T)) (tL : Nat) (vL : T) (tEnd td : Nat)
    (hchain : rapidChain delay (ins ++ [(tL, vL)]))
    (hEnd : tL + delay ≤ tEnd)
    (htd : td < tL + delay) :
    (debounceRun delay { debouncedValue := d0, pending := none }
        (inputEvents (ins ++ [(tL, vL)]) ++ [DebounceEvent.elapse tEnd])).2
      = [(tL + delay, vL)] ∧
    (debounceRun delay { debouncedValue := d0, pending := none }
        (inputEvents (ins ++ [(tL, vL)]) ++ [DebounceEvent.elapse tEnd])).1.debouncedValue
      = vL ∧
    (∀ (s : DebounceState T) (t : Nat) (v : T),
      (∀ tf pv, s.pending = some (tf, pv) → t < tf) →
      debounceStep delay s (DebounceEvent.input t v)
        = ({ debouncedValue := s.debouncedValue, pending := some (t + delay, v) }, [])) ∧
    (debounceRun delay { debouncedValue := d0, pending := none }
        (inputEvents (ins ++ [(tL, vL)]) ++
          [DebounceEvent.teardown td, DebounceEvent.elapse tEnd])).2
      = [] := by
  obtain ⟨hem, hdv, hpend⟩ :=
    debounceRun_rapid delay (ins ++ [(tL, vL)])
      { debouncedValue := d0, pending := none } hchain (by intro tf v h; simp at h)
  have hlast : (ins ++ [(tL, vL)]).getLast? = some (tL, vL) := by
    simp
  rw [hlast] at hpend
  refine ⟨?_, ?_, ?_, ?_⟩
  · rw [debounceRun_append, hem]
    simp [debounceRun, debounceStep, debounceFire, hpend, hEnd]
  · rw [debounceRun_append]
    simp [debounceRun, debounceStep, debounceFire, hpend, hEnd]
  · intro s t v hg
    cases hp : s.pending with
    | none => simp [debounceStep, debounceFire, hp]
    | some q =>
        have hlt : t < q.1 := hg q.1 q.2 (by rw [hp])
        have hnle : ¬ q.1 ≤ t := by omega
        simp [debounceStep, debounceFire, hp, hnle]
  · rw [debounceRun_append, hem]
    have hnofire : ¬ tL + delay ≤ td := by omega
    simp [debounceRun, debounceRun_cons, debounceStep, debounceFire, hpend, hnofire]

/-- Witness for C7: four keystrokes "d", "du", "dun", "dune" 100 ms
apart with a 400 ms quiet period emit only ("dune", at 700 ms); a
teardown at 500 ms emits nothing. -/
theorem C7_debounce_witness :
    (debounceRun 400 { debouncedValue := "", pending := none }
        (inputEvents ([(0, "d"), (100, "du"), (200, "dun")] ++ [(300, "dune")]) ++
          [DebounceEvent.elapse 1000])).2
      = [(300 + 400, "dune")] ∧
    (debounceRun 400 { debouncedValue := "", pending := none }
        (inputEvents ([(0, "d"), (100, "du"), (200, "dun")] ++ [(300, "dune")]) ++
          [DebounceEvent.elapse 1000])).1.debouncedValue
      = "dune" ∧
    (∀ (s : DebounceState String) (t : Nat) (v : String),
      (∀ tf pv, s.pending = some (tf, pv) → t < tf) →
      debounceStep 400 s (DebounceEvent.input t v)
        = ({ debouncedValue := s.debouncedValue, pending := some (t + 400, v) }, [])) ∧
    (debounceRun 400 { debouncedValue := "", pending := none }
        (inputEvents ([(0, "d"), (100, "du"), (200, "dun")] ++ [(300, "dune")]) ++
          [DebounceEvent.teardown 500, DebounceEvent.elapse 1000])).2
      = [] :=
  C7_debounce String 400 "" [(0, "d"), (100, "du"), (200, "dun")] 300 "dune" 1000 500
    (by simp [rapidChain, List.chain'_cons]) (by decide) (by decide)

/-- C8 as stated is false for the generic `useAPI` hook: its completion
updates carry no mounted-guard (unlike `useBooks`/`useAuthors`), so
after a teardown mid-flight the completing run still issues
`setError` (or `setData`) and `setLoading false` — state updates after
the consumer is gone. -/
theorem C8_counterexample_update_after_teardown :
    UseAPI.executePost (List Book) (Except.error { message := "Network Error" }) false =
      [StateUpdate.setError (some { message := "Network Error" }),
       StateUpdate.setLoading false] ∧
    ¬ UseAPI.executePost (List Book) (Except.error { message := "Network Error" }) false
      = [] := by
  constructor
  · rfl
  · decide

/-- C8 (amended): every run clears the previous error and sets the
in-flight flag before the asynchronous operation starts, and its last
update on completion clears the in-flight flag whether the operation
succeeded or failed — for the generic hook and the bulk-list hook
alike; the no-update-after-teardown guarantee holds for the bulk-list
hook (`useBooks`'s `isMounted` guard suppresses every completion
update), but the generic `useAPI` issues its completion updates
regardless of whether the consumer is still mounted. -/
theorem C8_amended_request_state (α : Type) (outcome : Except APIError α)
    (outcomeB : Except APIError (List Book)) :
    UseAPI.executePre α = [StateUpdate.setLoading true, StateUpdate.setError none] ∧
    (UseAPI.executePost α outcome true).getLast? = some (StateUpdate.setLoading false) ∧
    UseBooks.fetchPre = [StateUpdate.setLoading true, StateUpdate.setError none] ∧
    (UseBooks.fetchPost outcomeB true).getLast? = some (StateUpdate.setLoading false) ∧
    UseBooks.fetchPost outcomeB false = [] ∧
    (∀ m : Bool, UseAPI.executePost α outcome m = UseAPI.executePost α outcome true) := by
  refine ⟨rfl, ?_, rfl, ?_, ?_, fun m => rfl⟩
  · cases outcome <;> rfl
  · cases outcomeB <;> rfl
  · cases outcomeB <;> rfl

/-- C10: a failed `useAPI` run leaves the previously fetched data field
unchanged — after a success followed by a failed re-run the stale
successful result is still present alongside the new error — and only
an explicit reset (or a later success) replaces it. -/
theorem C10_stale_data_on_failure (α : Type) (s : RequestState α) (r : α) (e : APIError) :
    (UseAPI.executeRun s (Except.error e)).data = s.data ∧
    (UseAPI.executeRun s (Except.error e)).error = some e ∧
    UseAPI.executeRun (UseAPI.executeRun s (Except.ok r)) (Except.error e) =
      { data := some r, loading := false, error := some e } ∧
    (applyUpdates (UseAPI.executeRun (UseAPI.executeRun s (Except.ok r)) (Except.error e))
        (UseAPI.resetUpdates α)).data = none ∧
    (UseAPI.executeRun (UseAPI.executeRun s (Except.error e)) (Except.ok r)).data = some r :=
  ⟨rfl, rfl, rfl, rfl, rfl⟩

end LibraryApp
